import Mathlib

/-!
Shallow embedding of the ASTERRA GeoJSON ingestion pipeline.

Sources embedded:
- `src/docker/geojson-processor/app.py` — `GeoJSONProcessor.validate_geojson`
  (lines 63-96), table-name derivation and `process_geojson_file` (lines 98-150).
- `src/terraform/lambda/s3_processor.py` — `handler` (lines 20-62),
  `run_ecs_task` (lines 65-141), `validate_geojson_key` (lines 144-162).

Parsed JSON values are modelled by the inductive `Json`; Python `dict.get` is
`Json.getKey?` (first binding; Python dicts cannot carry duplicate keys, and
every lookup here goes through the same function, so the modelling is
consistent). Machine effects (S3 reads, GeoPandas, the PostGIS engine, ECS
launches) are modelled by explicit environment records whose fields say what
each external call would return, and the destination store is an association
list from table name to row list, written with replace semantics exactly as
`to_postgis(..., if_exists=\x27replace\x27)` behaves.
-/

namespace Asterra

/-- A parsed JSON value (the result of Python `json.loads`). -/
inductive Json where
  | null : Json
  | bool (b : Bool) : Json
  | num (n : Int) : Json
  | str (s : String) : Json
  | arr (elems : List Json) : Json
  | obj (fields : List (String × Json)) : Json

/-- Python `dict.get(k)` / `k in dict`: first binding of `k`, if any.
On a non-object there is no binding (callers guard with `isinstance`). -/
def Json.getKey? (j : Json) (k : String) : Option Json :=
  match j with
  | Json.obj fields =>
    match fields.find? (fun p => p.1 == k) with
    | some p => some p.2
    | none => none
  | _ => none

/-- Python `isinstance(x, dict)`. -/
def Json.isObj : Json → Bool
  | Json.obj _ => true
  | _ => false

/-- Python `v == s` for a JSON value (or absent key, `v = none`) against a
string literal: true exactly when the value is that string. This models
`d.get(k) == \x27lit\x27` (and its negation models `!=`). -/
def isStrVal (v : Option Json) (s : String) : Bool :=
  match v with
  | some (Json.str t) => t == s
  | _ => false

/-! ## Validator (`validate_geojson`, app.py lines 63-96) -/

/-- The per-feature loop of `validate_geojson` (app.py lines 83-91), carrying
the `enumerate` index. Returns the `(bool, message)` pair of the Python code. -/
def validateFeatures : Nat → List Json → Bool × String
  | _, [] => (true, "Valid GeoJSON")
  | i, f :: rest =>
    if f.isObj = false then
      (false, "Feature " ++ toString i ++ " is not an object")
    else if isStrVal (Json.getKey? f "type") "Feature" = false then
      (false, "Feature " ++ toString i ++ " type is not \x27Feature\x27")
    else if (Json.getKey? f "geometry").isNone then
      (false, "Feature " ++ toString i ++ " missing geometry")
    else validateFeatures (i + 1) rest

/-- `GeoJSONProcessor.validate_geojson` (app.py lines 63-96). The Python
`try` around the checks is dead in this model: none of the checks can raise. -/
def validate_geojson (j : Json) : Bool × String :=
  if j.isObj = false then
    (false, "GeoJSON must be a JSON object")
  else if isStrVal (Json.getKey? j "type") "FeatureCollection" = false then
    (false, "Must be a FeatureCollection")
  else
    match Json.getKey? j "features" with
    | none => (false, "No features found")
    | some (Json.arr fs) =>
      if fs.isEmpty then (false, "No features in collection")
      else validateFeatures 0 fs
    | some _ => (false, "Features must be a list")

/-- Spec-side predicate: a structurally acceptable Feature (`type = "Feature"`
and a `geometry` key present, with any value). -/
def featureOk (f : Json) : Bool :=
  f.isObj && isStrVal (Json.getKey? f "type") "Feature"
    && (Json.getKey? f "geometry").isSome

/-- Spec-side predicate: a document with none of the listed violations. -/
def docOk (j : Json) : Bool :=
  j.isObj && isStrVal (Json.getKey? j "type") "FeatureCollection"
    && (match Json.getKey? j "features" with
        | some (Json.arr fs) => !fs.isEmpty && fs.all featureOk
        | _ => false)

/-- The tail of the message `validate_geojson` produces for the first
violation inside feature `f` (mirrors the check order of app.py lines 83-91). -/
def featureErrSuffix (f : Json) : String :=
  if f.isObj = false then " is not an object"
  else if isStrVal (Json.getKey? f "type") "Feature" = false then
    " type is not \x27Feature\x27"
  else " missing geometry"

/-- The message `validate_geojson` produces for the first violation inside
feature `f` at index `i`. -/
def featureErr (i : Nat) (f : Json) : String :=
  "Feature " ++ toString i ++ featureErrSuffix f

theorem validateFeatures_true_iff (i : Nat) (fs : List Json) :
    (validateFeatures i fs).1 = true ↔ fs.all featureOk = true := by
  induction fs generalizing i with
  | nil => simp [validateFeatures]
  | cons f rest ih =>
    simp only [validateFeatures, List.all_cons, Bool.and_eq_true]
    rcases h1 : f.isObj with _ | _
    · simp [h1, featureOk]
    · rcases h2 : isStrVal (Json.getKey? f "type") "Feature" with _ | _
      · simp [h1, h2, featureOk]
      · rcases h3 : Json.getKey? f "geometry" with _ | g
        · simp [h1, h2, h3, featureOk]
        · simp [h1, h2, h3, featureOk, ih]

theorem validate_geojson_true_iff (j : Json) :
    (validate_geojson j).1 = true ↔ docOk j = true := by
  rcases h1 : j.isObj with _ | _
  · simp [validate_geojson, docOk, h1]
  · rcases h2 : isStrVal (Json.getKey? j "type") "FeatureCollection" with _ | _
    · simp [validate_geojson, docOk, h1, h2]
    · rcases h3 : Json.getKey? j "features" with _ | f
      · simp [validate_geojson, docOk, h1, h2, h3]
      · rcases f with _ | b | n | s | fs | kvs
        · simp [validate_geojson, docOk, h1, h2, h3]
        · simp [validate_geojson, docOk, h1, h2, h3]
        · simp [validate_geojson, docOk, h1, h2, h3]
        · simp [validate_geojson, docOk, h1, h2, h3]
        · rcases h4 : fs.isEmpty with _ | _
          · simp [validate_geojson, docOk, h1, h2, h3, h4,
              validateFeatures_true_iff]
          · simp [validate_geojson, docOk, h1, h2, h3, h4]
        · simp [validate_geojson, docOk, h1, h2, h3]

theorem validateFeatures_shortCircuit (i0 : Nat) (fs : List Json) (i : Nat)
    (hi : i < fs.length)
    (hpre : ∀ k, (hk : k < fs.length) → k < i → featureOk (fs.get ⟨k, hk⟩) = true)
    (hbad : featureOk (fs.get ⟨i, hi⟩) = false) :
    validateFeatures i0 fs = (false, featureErr (i0 + i) (fs.get ⟨i, hi⟩)) := by
  induction fs generalizing i0 i with
  | nil => simp at hi
  | cons f rest ih =>
    cases i with
    | zero =>
      simp only [List.get] at hbad ⊢
      rcases hb1 : f.isObj with _ | _
      · simp [validateFeatures, featureErr, featureErrSuffix, hb1]
      · rcases hb2 : isStrVal (Json.getKey? f "type") "Feature" with _ | _
        · simp [validateFeatures, featureErr, featureErrSuffix, hb1, hb2]
        · rcases hb3 : Json.getKey? f "geometry" with _ | g
          · simp [validateFeatures, featureErr, featureErrSuffix, hb1, hb2, hb3]
          · exfalso
            simp [featureOk, hb1, hb2, hb3] at hbad
    | succ k =>
      have hf : featureOk f = true := by
        have := hpre 0 (Nat.succ_pos _) (Nat.succ_pos k)
        simpa using this
      have hb1 : f.isObj = true := by
        simp [featureOk] at hf; exact hf.1.1
      have hb2 : isStrVal (Json.getKey? f "type") "Feature" = true := by
        simp [featureOk] at hf; exact hf.1.2
      have hb3 : (Json.getKey? f "geometry").isNone = false := by
        simp [featureOk] at hf
        rcases hg : Json.getKey? f "geometry" with _ | g
        · rw [hg] at hf; simp at hf
        · simp
      have hk : k < rest.length := Nat.lt_of_succ_lt_succ hi
      have hstep : validateFeatures i0 (f :: rest) = validateFeatures (i0 + 1) rest := by
        simp [validateFeatures, hb1, hb2, hb3]
      rw [hstep]
      have hpre2 : ∀ k2, (hk2 : k2 < rest.length) → k2 < k →
          featureOk (rest.get ⟨k2, hk2⟩) = true := by
        intro k2 hk2 hlt
        have := hpre (k2 + 1) (Nat.succ_lt_succ hk2) (Nat.succ_lt_succ hlt)
        simpa using this
      have hbad2 : featureOk (rest.get ⟨k, hk⟩) = false := by
        simpa using hbad
      have := ih (i0 + 1) k hk hpre2 hbad2
      rw [this]
      have harg : (f :: rest).get ⟨k + 1, hi⟩ = rest.get ⟨k, hk⟩ := rfl
      rw [harg]
      have hidx : i0 + 1 + k = i0 + (k + 1) := by omega
      rw [hidx]

/-! ## Python string primitives

Python strings are sequences of code points; the embedding works on the
character list of a Lean `String`. `pyLower` is `str.lower` (per-character
lowering), `pyTake s n` is the slice `s[:n]`, `pyEndsWith` is
`str.endswith`, and `replaceChar s c` is `s.replace(c, \x27_\x27)` for a
one-character pattern (substring replace with a one-character pattern is
exactly a character map). These agree with Lean's own `String.toLower`,
`String.take`, `String.endsWith` and `String.map`, but are written over the
underlying list so that concrete instances compute inside the kernel. -/

def pyLower (s : String) : String := String.mk (s.data.map Char.toLower)

def pyTake (s : String) (n : Nat) : String := String.mk (s.data.take n)

def pyEndsWith (s suffix : String) : Bool := suffix.data.isSuffixOf s.data

def replaceChar (s : String) (c : Char) : String :=
  String.mk (s.data.map (fun x => if x = c then '_' else x))

theorem pyLower_eq_toLower (s : String) : pyLower s = s.toLower := by
  rw [String.toLower, String.map_eq]; rfl

theorem pyTake_eq_take (s : String) (n : Nat) : pyTake s n = s.take n := by
  rw [String.take_eq]; rfl

/-! ## Table-Name Deriver (app.py lines 128-129) -/

/-- app.py lines 128-129:
`table_name = f"geojson_{key.replace(\x27/\x27, \x27_\x27).replace(\x27.\x27, \x27_\x27).replace(\x27-\x27, \x27_\x27)}"`
followed by `table_name.lower()[:63]`. -/
def deriveTableName (key : String) : String :=
  let table_name := "geojson_" ++ replaceChar (replaceChar (replaceChar key '/') '.') '-'
  pyTake (pyLower table_name) 63

/-- The one-character substitution described by the spec (§4.2). -/
def specReplace (c : Char) : Char :=
  if c = '/' then '_' else if c = '.' then '_' else if c = '-' then '_' else c

/-- Modelled from the spec words of the Table-Name Deriver contract (§4.2),
for comparison with `deriveTableName`: replace each of `/`, `.`, `-` with an
underscore, prepend the `geojson_` namespace, lower-case, truncate to 63. -/
def deriveTableNameSpec (key : String) : String :=
  pyTake (pyLower ("geojson_" ++ String.mk (key.data.map specReplace))) 63

theorem composedReplace (x : Char) :
    (fun a => if a = '-' then '_' else a)
      ((fun a => if a = '.' then '_' else a)
        ((fun a => if a = '/' then '_' else a) x)) = specReplace x := by
  by_cases h1 : x = '/'
  · subst h1; decide
  · by_cases h2 : x = '.'
    · subst h2; decide
    · by_cases h3 : x = '-'
      · subst h3; decide
      · simp [specReplace, h1, h2, h3]

theorem replace_eq_map (key : String) :
    replaceChar (replaceChar (replaceChar key '/') '.') '-' =
      String.mk (key.data.map specReplace) := by
  simp only [replaceChar, List.map_map]
  exact congrArg String.mk (List.map_congr_left fun x _ => composedReplace x)

theorem pyTake_length_le (s : String) (n : Nat) : (pyTake s n).length ≤ n := by
  simp only [pyTake, String.length, List.length_take]
  exact Nat.min_le_left _ _

/-! ## Ingestion Orchestrator (`process_geojson_file`, app.py lines 98-150)

The external world of one invocation is an `Env`: what the S3 `get_object`
plus `json.loads` pipeline yields (`content1`), what the later, independent
`gpd.read_file` over the same `s3://bucket/key` URL yields (`content2` — the
object may have changed between the two reads), whether the fetch raises
(`fetchError`), whether `get_db_connection`/`to_postgis` raises (`dbError`),
and the values of `datetime.utcnow()` (`now`) and `str(uuid.uuid4())`
(`newId`) — the uuid is sampled once per call, exactly as the source assigns
one scalar to the whole `gdf[\x27processing_id\x27]` column. -/

/-- One row of the GeoDataFrame as written by `to_postgis`: the feature data
read by GeoPandas plus the three metadata columns added at app.py
lines 120-122. -/
structure Row where
  feature : Json
  file_source : String
  processed_at : Nat
  processing_id : String

/-- What downloading and parsing the object yields: `json.loads` either
raises `JSONDecodeError` (`invalid`) or produces a value (`parsed`). -/
inductive Content where
  | invalid (err : String) : Content
  | parsed (j : Json) : Content

/-- External-world outcome of one `process_geojson_file` call. -/
structure Env where
  fetchError : Option String
  content1 : Content
  content2 : Json
  dbError : Option String
  now : Nat
  newId : String

/-- The rows `gpd.read_file` produces from a GeoJSON document: one per
feature of the collection. -/
def gdfFeatures (j : Json) : List Json :=
  match Json.getKey? j "features" with
  | some (Json.arr fs) => fs
  | _ => []

/-- The destination PostGIS store: table name to list of rows. -/
def Store := List (String × List Row)

/-- `to_postgis(..., if_exists=\x27replace\x27)`: the table is dropped and
recreated, so the new rows fully supersede any prior entry for this name. -/
def storeWrite (st : Store) (t : String) (rs : List Row) : Store :=
  st.filter (fun p => p.1 ≠ t) ++ [(t, rs)]

/-- Read back a table's rows. -/
def storeLookup (st : Store) (t : String) : Option (List Row) :=
  match st.find? (fun p => p.1 == t) with
  | some p => some p.2
  | none => none

theorem storeLookup_write (st : Store) (t : String) (rs : List Row) :
    storeLookup (storeWrite st t rs) t = some rs := by
  induction st with
  | nil => simp [storeLookup, storeWrite, List.find?]
  | cons p rest ih =>
    by_cases h : p.1 = t
    · have hfc : storeWrite (p :: rest) t rs = storeWrite rest t rs := by
        simp [storeWrite, List.filter_cons, h]
      rw [hfc]; exact ih
    · have hfc : storeWrite (p :: rest) t rs = p :: storeWrite rest t rs := by
        simp [storeWrite, List.filter_cons, h]
      rw [hfc]
      have hbeq : (p.1 == t) = false := by simp [h]
      simp only [storeLookup, List.find?, hbeq]
      exact ih

/-- The metadata-stamped rows of one call (app.py lines 117-122). -/
def mkRows (env : Env) (key : String) : List Row :=
  (gdfFeatures env.content2).map
    (fun f => { feature := f, file_source := key,
                processed_at := env.now, processing_id := env.newId })

/-- `GeoJSONProcessor.process_geojson_file` (app.py lines 98-150), with the
destination store passed explicitly. Any exception from `get_object`,
`get_db_connection` or `to_postgis` lands in the generic
`except Exception` handler (lines 147-150), which returns
`Error processing file: <cause>`; only `json.JSONDecodeError` gets the
dedicated `Invalid JSON format: <cause>` message (lines 143-146). -/
def process_geojson_file (env : Env) (st : Store) (key : String) :
    (Bool × String) × Store :=
  match env.fetchError with
  | some e => ((false, "Error processing file: " ++ e), st)
  | none =>
    match env.content1 with
    | Content.invalid e => ((false, "Invalid JSON format: " ++ e), st)
    | Content.parsed j =>
      let v := validate_geojson j
      if v.1 = false then ((false, v.2), st)
      else
        let rows := mkRows env key
        match env.dbError with
        | some e => ((false, "Error processing file: " ++ e), st)
        | none =>
          ((true, "Processed " ++ toString rows.length ++ " features"),
           storeWrite st (deriveTableName key) rows)

theorem process_success (env : Env) (st : Store) (key : String) (j : Json)
    (hf : env.fetchError = none) (hc : env.content1 = Content.parsed j)
    (hv : (validate_geojson j).1 = true) (hd : env.dbError = none) :
    process_geojson_file env st key =
      ((true, "Processed " ++ toString (mkRows env key).length ++ " features"),
       storeWrite st (deriveTableName key) (mkRows env key)) := by
  unfold process_geojson_file
  rw [hf, hc, hd]
  simp [hv]

/-! ## Event Dispatcher (`handler`, s3_processor.py lines 20-62) -/

/-- One S3 event record: bucket name and object key. The key is the value of
`unquote_plus(record[\x27s3\x27][\x27object\x27][\x27key\x27])` (line 31),
i.e. already percent-decoded. -/
structure S3Record where
  bucket : String
  key : String

/-- External-world outcome of the dispatcher: for each object key, whether
`ecs_client.run_task` reports `failures` (with the failure text) or starts
the task. -/
structure DEnv where
  launchError : String → Option String

/-- The record loop of `handler` (lines 28-43) combined with the effect of
`run_ecs_task` (lines 65-141): a successful launch appends the task's
(bucket, key) pair; a launch whose response carries `failures` raises
`ECS task failed to start: <failures>` (lines 129-133), and the exception
propagates out of the loop. Returns the raised message (if any) together
with the tasks launched so far. -/
def dispatchLoop (env : DEnv) : List S3Record → List (String × String) →
    Option String × List (String × String)
  | [], launched => (none, launched)
  | r :: rest, launched =>
    if pyEndsWith (pyLower r.key) ".geojson" = false then
      dispatchLoop env rest launched
    else
      match env.launchError r.key with
      | some e => (some ("ECS task failed to start: " ++ e), launched)
      | none => dispatchLoop env rest (launched ++ [(r.bucket, r.key)])

/-- `handler` (lines 20-62): the whole record loop sits inside one `try`; an
exception yields the 500 response whose body carries `str(e)` (lines 53-62),
a clean pass yields 200 with
`Successfully processed {len(event["Records"])} files` (lines 45-51).
Returns (statusCode, body message) and the list of ECS tasks launched. -/
def handler (env : DEnv) (records : List S3Record) :
    (Nat × String) × List (String × String) :=
  match dispatchLoop env records [] with
  | (none, launched) =>
    ((200, "Successfully processed " ++ toString records.length ++ " files"),
     launched)
  | (some e, launched) => ((500, e), launched)

/-- Python `sub in hay` on lists of characters. -/
def listHasSub (sub : List Char) : List Char → Bool
  | [] => sub.isEmpty
  | c :: t => sub.isPrefixOf (c :: t) || listHasSub sub t

/-- Python `sub in hay` for strings: substring containment. -/
def strContains (hay sub : String) : Bool := listHasSub sub.toList hay.toList

/-- s3_processor.py line 154. -/
def system_folders : List String := ["_system", ".tmp", "logs", "backups"]

/-- `validate_geojson_key` (s3_processor.py lines 144-162). Nothing in the
repository calls this function; in particular `handler` does not. -/
def validate_geojson_key (key : String) : Bool × String :=
  if pyEndsWith (pyLower key) ".geojson" = false then (false, "Not a GeoJSON file")
  else
    match system_folders.find? (fun f => strContains (pyLower key) f) with
    | some f => (false, "File in system folder: " ++ f)
    | none => (true, "Valid GeoJSON file")

/-- The filter `handler` actually applies (line 36). -/
def qualifies (r : S3Record) : Bool := pyEndsWith (pyLower r.key) ".geojson"

theorem dispatchLoop_ok (env : DEnv) (records : List S3Record)
    (acc : List (String × String))
    (h : ∀ r ∈ records, qualifies r = true → env.launchError r.key = none) :
    dispatchLoop env records acc =
      (none, acc ++ (records.filter qualifies).map (fun r => (r.bucket, r.key))) := by
  induction records generalizing acc with
  | nil => simp [dispatchLoop]
  | cons r rest ih =>
    rcases hq : pyEndsWith (pyLower r.key) ".geojson" with _ | _
    · simp only [dispatchLoop, hq]
      rw [ih acc (fun x hx hqx => h x (List.mem_cons_of_mem _ hx) hqx)]
      simp [List.filter_cons, qualifies, hq]
    · have hl := h r (List.mem_cons_self _ _) (by simp [qualifies, hq])
      simp only [dispatchLoop, hq, hl]
      rw [ih (acc ++ [(r.bucket, r.key)])
        (fun x hx hqx => h x (List.mem_cons_of_mem _ hx) hqx)]
      simp [List.filter_cons, qualifies, hq]

/-! ## Claim theorems -/

/-- C3: the Validator returns Success exactly when none of the listed
violations holds (so Failure exactly when one does), accepting every
document whose features all have `type = "Feature"` and a `geometry` key
with any value (`null` included); on the first per-feature violation it
short-circuits, producing the message for the earliest offending feature,
which carries that feature's index. -/
theorem C3_validator_exact_and_shortCircuit (j : Json) :
    ((validate_geojson j).1 = true ↔ docOk j = true)
    ∧ (∀ fs : List Json, ∀ i : Nat, ∀ hi : i < fs.length,
        j.isObj = true →
        isStrVal (Json.getKey? j "type") "FeatureCollection" = true →
        Json.getKey? j "features" = some (Json.arr fs) →
        (∀ k, (hk : k < fs.length) → k < i → featureOk (fs.get ⟨k, hk⟩) = true) →
        featureOk (fs.get ⟨i, hi⟩) = false →
        validate_geojson j = (false, featureErr i (fs.get ⟨i, hi⟩))
          ∧ ∃ post : String,
              "Feature " ++ (toString i ++ post) = (validate_geojson j).2) := by
  constructor
  · exact validate_geojson_true_iff j
  · intro fs i hi h1 h2 h3 hpre hbad
    have hne : fs.isEmpty = false := by
      cases fs
      · simp at hi
      · simp
    have hv : validate_geojson j = validateFeatures 0 fs := by
      simp [validate_geojson, h1, h2, h3, hne]
    have hsc := validateFeatures_shortCircuit 0 fs i hi hpre hbad
    rw [Nat.zero_add] at hsc
    refine ⟨hv.trans hsc, ⟨featureErrSuffix (fs.get ⟨i, hi⟩), ?_⟩⟩
    rw [hv, hsc]
    rfl

/-- Witness document for the Validator claim: feature 0 acceptable,
feature 1 lacking a `geometry` key. -/
def fWgood : Json :=
  Json.obj [("type", Json.str "Feature"), ("geometry", Json.null)]

def fWbad : Json :=
  Json.obj [("type", Json.str "Feature"), ("properties", Json.obj [])]

def jW : Json :=
  Json.obj [("type", Json.str "FeatureCollection"),
            ("features", Json.arr [fWgood, fWbad])]

theorem C3_witness :
    validate_geojson jW = (false, "Feature 1 missing geometry") := by
  have h := ((C3_validator_exact_and_shortCircuit jW).2 [fWgood, fWbad] 1
    (by decide) (by decide) (by decide) rfl
    (fun k hk hlt => by
      have hk0 : k = 0 := by omega
      subst hk0
      rfl)
    rfl).1
  rw [h]
  rfl

/-- C4: the derived destination table identifier equals the spec's
description (each of `/`, `.`, `-` replaced by an underscore, `geojson_`
prepended, lower-cased, truncated to 63 characters), its length is at most
63, and the derivation is a pure total function, equal on equal inputs. -/
theorem C4_deriveTableName_spec_and_stable (k : String) :
    deriveTableName k = deriveTableNameSpec k
    ∧ (deriveTableName k).length ≤ 63
    ∧ deriveTableName k = deriveTableName k := by
  refine ⟨?_, ?_, rfl⟩
  · unfold deriveTableName deriveTableNameSpec
    rw [replace_eq_map]
  · unfold deriveTableName
    exact pyTake_length_le _ _

/-- C2: invoking `process_geojson_file` twice over the same valid source
yields two Success results with the same feature-count message, and the
destination table afterwards holds exactly the rows of the second call
(`if_exists=\x27replace\x27` drops the first call's rows). -/
theorem C2_processFile_idempotent (e1 e2 : Env) (st : Store) (key : String)
    (j : Json)
    (h1f : e1.fetchError = none) (h2f : e2.fetchError = none)
    (h1c : e1.content1 = Content.parsed j) (h2c : e2.content1 = Content.parsed j)
    (hcc : e1.content2 = e2.content2)
    (hv : (validate_geojson j).1 = true)
    (h1d : e1.dbError = none) (h2d : e2.dbError = none) :
    (process_geojson_file e1 st key).1.1 = true
    ∧ (process_geojson_file e2 (process_geojson_file e1 st key).2 key).1.1 = true
    ∧ (process_geojson_file e1 st key).1.2
        = (process_geojson_file e2 (process_geojson_file e1 st key).2 key).1.2
    ∧ storeLookup (process_geojson_file e2 (process_geojson_file e1 st key).2 key).2
        (deriveTableName key) = some (mkRows e2 key) := by
  rw [process_success e1 st key j h1f h1c hv h1d]
  rw [process_success e2 _ key j h2f h2c hv h2d]
  refine ⟨rfl, rfl, ?_, storeLookup_write _ _ _⟩
  simp [mkRows, hcc]

/-- The one-feature FeatureCollection of spec §8 scenario A. -/
def jA : Json :=
  Json.obj [("type", Json.str "FeatureCollection"),
            ("features", Json.arr [Json.obj
              [("type", Json.str "Feature"),
               ("geometry", Json.obj [("type", Json.str "Point"),
                 ("coordinates", Json.arr [Json.num 1, Json.num 2])]),
               ("properties", Json.obj [("name", Json.str "x")])]])]

/-- First run of the idempotence witness. -/
def e1A : Env :=
  { fetchError := none, content1 := Content.parsed jA, content2 := jA,
    dbError := none, now := 10, newId := "run-1" }

/-- Second run of the idempotence witness: same source, fresh time and id. -/
def e2A : Env :=
  { fetchError := none, content1 := Content.parsed jA, content2 := jA,
    dbError := none, now := 20, newId := "run-2" }

theorem C2_witness :
    (process_geojson_file e1A [] "region/a.geojson").1.1 = true
    ∧ (process_geojson_file e2A
        (process_geojson_file e1A [] "region/a.geojson").2 "region/a.geojson").1.1 = true
    ∧ (process_geojson_file e1A [] "region/a.geojson").1.2
        = (process_geojson_file e2A
            (process_geojson_file e1A [] "region/a.geojson").2 "region/a.geojson").1.2
    ∧ storeLookup (process_geojson_file e2A
          (process_geojson_file e1A [] "region/a.geojson").2 "region/a.geojson").2
        (deriveTableName "region/a.geojson") = some (mkRows e2A "region/a.geojson") :=
  C2_processFile_idempotent e1A e2A [] "region/a.geojson" jA
    rfl rfl rfl rfl rfl (by decide) rfl rfl

/-- C5: a FeatureCollection with an empty features sequence gives
Failure "No features in collection" and leaves the store untouched. -/
theorem C5_empty_features_no_write (env : Env) (st : Store) (key : String)
    (j : Json)
    (hf : env.fetchError = none) (hc : env.content1 = Content.parsed j)
    (hobj : j.isObj = true)
    (hty : isStrVal (Json.getKey? j "type") "FeatureCollection" = true)
    (hfeat : Json.getKey? j "features" = some (Json.arr [])) :
    process_geojson_file env st key = ((false, "No features in collection"), st) := by
  have hv : validate_geojson j = (false, "No features in collection") := by
    simp [validate_geojson, hobj, hty, hfeat]
  unfold process_geojson_file
  rw [hf, hc]
  simp [hv]

/-- The empty FeatureCollection of spec §8 scenario B. -/
def jEmpty : Json :=
  Json.obj [("type", Json.str "FeatureCollection"), ("features", Json.arr [])]

/-- Environment delivering the empty collection. -/
def eEmpty : Env :=
  { fetchError := none, content1 := Content.parsed jEmpty, content2 := jEmpty,
    dbError := none, now := 0, newId := "run-e" }

theorem C5_witness :
    process_geojson_file eEmpty [] "empty.geojson"
      = ((false, "No features in collection"), []) :=
  C5_empty_features_no_write eEmpty [] "empty.geojson" jEmpty
    rfl rfl (by decide) (by decide) rfl

/-- Environment in which the database is unreachable during the load stage. -/
def eC6 : Env :=
  { fetchError := none, content1 := Content.parsed jA, content2 := jA,
    dbError := some "connection refused", now := 0, newId := "run-6" }

/-- C6 counterexample: with validation already passed and the destination
store unreachable, the returned message is
`Error processing file: connection refused` — it does not begin with
`load error`, so no message of the form `load error: <cause>` is produced. -/
theorem C6_counterexample :
    (process_geojson_file eC6 [] "a.geojson").1
        = (false, "Error processing file: connection refused")
    ∧ (validate_geojson jA).1 = true
    ∧ "load error".data.isPrefixOf
        "Error processing file: connection refused".data = false := by
  exact ⟨rfl, by decide, by decide⟩

/-- C6 amended: when validation has passed and the load stage then fails,
`process_geojson_file` returns Failure with the generic message
`Error processing file: <cause>` — it carries the underlying cause but does
not attribute the failure to the load stage — and nothing is written. -/
theorem C6_amended_load_failure_message (env : Env) (st : Store) (key : String)
    (j : Json) (e : String)
    (hf : env.fetchError = none) (hc : env.content1 = Content.parsed j)
    (hv : (validate_geojson j).1 = true)
    (hd : env.dbError = some e) :
    process_geojson_file env st key
      = ((false, "Error processing file: " ++ e), st) := by
  unfold process_geojson_file
  rw [hf, hc, hd]
  simp [hv]

theorem C6_witness :
    process_geojson_file eC6 [] "a.geojson"
      = ((false, "Error processing file: connection refused"), []) :=
  C6_amended_load_failure_message eC6 [] "a.geojson" jA "connection refused"
    rfl rfl (by decide) rfl

/-- C9: in a successful call every row written to the destination table
carries the single `processing_id` generated for that call (`env.newId`,
sampled once, shared by the whole batch) and `file_source` equal to the
originating key. -/
theorem C9_one_processing_id (env : Env) (st : Store) (key : String) (j : Json)
    (rows : List Row)
    (hf : env.fetchError = none) (hc : env.content1 = Content.parsed j)
    (hv : (validate_geojson j).1 = true) (hd : env.dbError = none)
    (hrows : storeLookup (process_geojson_file env st key).2 (deriveTableName key)
        = some rows) :
    ∀ r ∈ rows, r.processing_id = env.newId ∧ r.file_source = key := by
  rw [process_success env st key j hf hc hv hd] at hrows
  rw [storeLookup_write] at hrows
  obtain rfl : mkRows env key = rows := Option.some.inj hrows
  intro r hr
  simp only [mkRows, List.mem_map] at hr
  obtain ⟨f, hf2, rfl⟩ := hr
  exact ⟨rfl, rfl⟩

/-- The single row the C9 witness run writes. -/
def rowA : Row :=
  { feature := Json.obj
      [("type", Json.str "Feature"),
       ("geometry", Json.obj [("type", Json.str "Point"),
         ("coordinates", Json.arr [Json.num 1, Json.num 2])]),
       ("properties", Json.obj [("name", Json.str "x")])],
    file_source := "region/a.geojson", processed_at := 10,
    processing_id := "run-1" }

theorem C9_witness :
    rowA.processing_id = e1A.newId ∧ rowA.file_source = "region/a.geojson" :=
  C9_one_processing_id e1A [] "region/a.geojson" jA
    (mkRows e1A "region/a.geojson") rfl rfl (by decide) rfl rfl rowA
    (List.mem_singleton.mpr rfl)

/-- The two-feature FeatureCollection the second read returns in the C10
witness. -/
def jB : Json :=
  Json.obj [("type", Json.str "FeatureCollection"),
            ("features", Json.arr
              [Json.obj [("type", Json.str "Feature"), ("geometry", Json.null)],
               Json.obj [("type", Json.str "Feature"), ("geometry", Json.null)]])]

/-- Environment in which the object changes between the two reads: the
validated download (`content1`) has one feature, the later
`gpd.read_file` (`content2`) sees two. -/
def eC10 : Env :=
  { fetchError := none, content1 := Content.parsed jA, content2 := jB,
    dbError := none, now := 0, newId := "run-10" }

/-- C10: validation reads the downloaded copy (`content1`) while the rows
written and the reported feature count derive from the later, independent
`gpd.read_file` read (`content2`); nothing ties the two reads together, so
if the object changes in between, the data loaded is not the data that was
validated. -/
theorem C10_second_read_governs (env : Env) (st : Store) (key : String)
    (j : Json)
    (hf : env.fetchError = none) (hc : env.content1 = Content.parsed j)
    (hv : (validate_geojson j).1 = true) (hd : env.dbError = none) :
    (process_geojson_file env st key).1
      = (true, "Processed " ++ toString (gdfFeatures env.content2).length
          ++ " features")
    ∧ storeLookup (process_geojson_file env st key).2 (deriveTableName key)
      = some (mkRows env key)
    ∧ (mkRows env key).map Row.feature = gdfFeatures env.content2 := by
  rw [process_success env st key j hf hc hv hd]
  refine ⟨?_, storeLookup_write _ _ _, ?_⟩
  · simp [mkRows]
  · simp [mkRows, List.map_map]
    exact List.map_id _

theorem C10_witness :
    (process_geojson_file eC10 [] "region/a.geojson").1
        = (true, "Processed 2 features")
    ∧ (validate_geojson jA).1 = true := by
  refine ⟨?_, by decide⟩
  have h := (C10_second_read_governs eC10 [] "region/a.geojson" jA
    rfl rfl (by decide) rfl).1
  rw [h]
  rfl

/-- Dispatcher environment in which launching the task for `a.geojson`
fails and every other launch succeeds. -/
def envC1 : DEnv :=
  { launchError := fun k => if k = "a.geojson" then some "boom" else none }

/-- C1 counterexample: in a batch of two qualifying notifications whose
first launch fails, the handler returns 500 and launches nothing — the
second key's dispatch is never attempted, although on its own it would
succeed. -/
theorem C1_counterexample :
    handler envC1 [{ bucket := "b", key := "a.geojson" },
                   { bucket := "b", key := "c.geojson" }]
      = ((500, "ECS task failed to start: boom"), [])
    ∧ handler envC1 [{ bucket := "b", key := "c.geojson" }]
      = ((200, "Successfully processed 1 files"), [("b", "c.geojson")]) := by
  exact ⟨by decide, by decide⟩

/-- C1 amended: a launch failure for one notification aborts the whole
batch — the single try/except around the record loop turns the raised
launch error into a 500 response, and no remaining notification in the
batch is attempted. -/
theorem C1_amended_launch_failure_aborts (env : DEnv) (r : S3Record)
    (rest : List S3Record) (acc : List (String × String)) (e : String)
    (hq : pyEndsWith (pyLower r.key) ".geojson" = true)
    (he : env.launchError r.key = some e) :
    dispatchLoop env (r :: rest) acc
        = (some ("ECS task failed to start: " ++ e), acc)
    ∧ handler env (r :: rest)
        = ((500, "ECS task failed to start: " ++ e), []) := by
  have hloop : ∀ a : List (String × String), dispatchLoop env (r :: rest) a
      = (some ("ECS task failed to start: " ++ e), a) := by
    intro a
    simp [dispatchLoop, hq, he]
  exact ⟨hloop acc, by simp [handler, hloop []]⟩

theorem C1_witness :
    dispatchLoop envC1 [{ bucket := "b", key := "a.geojson" },
                        { bucket := "b", key := "c.geojson" }] []
        = (some ("ECS task failed to start: " ++ "boom"), [])
    ∧ handler envC1 [{ bucket := "b", key := "a.geojson" },
                     { bucket := "b", key := "c.geojson" }]
        = ((500, "ECS task failed to start: " ++ "boom"), []) :=
  C1_amended_launch_failure_aborts envC1 { bucket := "b", key := "a.geojson" }
    [{ bucket := "b", key := "c.geojson" }] [] "boom" (by decide) (by decide)

/-- Dispatcher environment in which every launch succeeds. -/
def envAllOk : DEnv := { launchError := fun _ => none }

/-- C7: the handler does skip a non-GeoJSON extension without erroring, but
it launches a processing run for a `.geojson` key inside a system folder —
even though the repository's own (never called) `validate_geojson_key`
rejects exactly that key. -/
theorem C7_system_folder_dispatched :
    handler envAllOk [{ bucket := "b", key := "logs/data.geojson" }]
      = ((200, "Successfully processed 1 files"), [("b", "logs/data.geojson")])
    ∧ validate_geojson_key "logs/data.geojson"
      = (false, "File in system folder: logs")
    ∧ handler envAllOk [{ bucket := "b", key := "notes.txt" }]
      = ((200, "Successfully processed 1 files"), []) := by
  exact ⟨by decide, by decide, by decide⟩

/-- The spec §8 scenario C batch: three notifications, the second with
extension `.txt`. -/
def batchC : List S3Record :=
  [{ bucket := "b", key := "a.geojson" },
   { bucket := "b", key := "b.txt" },
   { bucket := "b", key := "c.geojson" }]

/-- C8 counterexample: for the scenario C batch the handler does launch
exactly the two qualifying runs, but its report is only
`Successfully processed 3 files` — the count of notifications received;
the response carries no dispatched or skipped counts (the digit 2 does not
even occur in it). -/
theorem C8_counterexample :
    handler envAllOk batchC
      = ((200, "Successfully processed 3 files"),
         [("b", "a.geojson"), ("b", "c.geojson")])
    ∧ strContains "Successfully processed 3 files" "2" = false := by
  exact ⟨by decide, by decide⟩

/-- C8 amended: when every qualifying launch succeeds, the handler launches
one run per qualifying key, but its report states only the total number of
records received (`Successfully processed {len(Records)} files`); it does
not return separate dispatched and skipped counts. -/
theorem C8_amended_report_total_only (env : DEnv) (records : List S3Record)
    (h : ∀ r ∈ records, qualifies r = true → env.launchError r.key = none) :
    handler env records =
      ((200, "Successfully processed " ++ toString records.length ++ " files"),
       (records.filter qualifies).map (fun r => (r.bucket, r.key))) := by
  have h2 := dispatchLoop_ok env records [] h
  simp [handler, h2]

theorem C8_witness :
    handler envAllOk batchC =
      ((200, "Successfully processed " ++ toString batchC.length ++ " files"),
       (batchC.filter qualifies).map (fun r => (r.bucket, r.key))) :=
  C8_amended_report_total_only envAllOk batchC (fun _ _ _ => rfl)

end Asterra
